import Mathlib

/-!
Verification of the banking-secure repository (bank package + simulator).

Shallow embedding notes:
* Python `Decimal` values are modelled as exact rationals (`ℚ`).  The package
  `__init__` sets a 28-significant-digit context with half-even rounding; at the
  magnitudes this program uses (balances below 10^7, amounts with two decimals)
  every `Decimal` addition, subtraction and quantize step is exact, so `ℚ` is a
  faithful carrier.
* `Decimal.quantize(Decimal("0.01"), rounding=ROUND_HALF_EVEN)` is modelled by
  `quantizeHalfEven 2`, half-even (bankers) rounding to two fractional digits.
* Python exceptions are modelled by the inductive `PyExc`.  The class
  `bank.bank_account.InsufficientFunds` (defined locally in bank_account.py) is
  a different class from `bank.errors.InsufficientFunds`; the embedding keeps
  the two apart, exactly as `isinstance` does.
* `bank/config.py` defines MIN_TRANSACTION, MAX_TRANSACTION, CRIT_DELAY_SEC and
  ACTOR_THREAD_WARN_THRESHOLD, and nothing else.  In particular it does NOT
  define ACTOR_CALL_TIMEOUT_SEC, although bank_account_actor.py reads
  `cfg.ACTOR_CALL_TIMEOUT_SEC` in `_call` and `stop`; evaluating that attribute
  raises `AttributeError`, modelled by `PyExc.attrError`.
* `CRIT_DELAY_SEC` only inserts wall-clock sleeps inside critical sections and
  never changes any value, so it has no counterpart in the embedding.
-/

/-- Half-even (bankers) rounding of a rational to `s` fractional digits.
Model of `Decimal.quantize(Decimal("0.0…01"), rounding=ROUND_HALF_EVEN)`:
scale by `10^s`, round to the nearest integer with ties going to the even
integer, and scale back. -/
def quantizeHalfEven (s : ℕ) (x : ℚ) : ℚ :=
  let y : ℚ := x * 10 ^ s
  let n : ℤ := ⌊y⌋
  let frac : ℚ := y - (n : ℚ)
  let r : ℤ :=
    if frac < 1 / 2 then n
    else if 1 / 2 < frac then n + 1
    else if n % 2 = 0 then n else n + 1
  (r : ℚ) / 10 ^ s

/-- A rational is a Money value when it has at most two fractional digits,
i.e. it is an integer number of pence.  This is the normal form produced by
`as_money` in bank/money.py. -/
def isMoney (x : ℚ) : Prop := (x * 100).den = 1

instance (x : ℚ) : Decidable (isMoney x) :=
  inferInstanceAs (Decidable ((x * 100).den = 1))

/-- Python exception classes that the bank package raises or catches.
`insufficientFundsLocal` is the class defined inside bank_account.py, which is
distinct from `insufficientFunds` = bank.errors.InsufficientFunds (both derive
directly from Exception, so neither is an instance of the other).
`attrError` is the AttributeError raised when bank_account_actor.py evaluates
the missing attribute `cfg.ACTOR_CALL_TIMEOUT_SEC`. -/
inductive PyExc where
  | valueError
  | invalidAmount
  | insufficientFunds
  | insufficientFundsLocal
  | attrError
  | timeoutError
  deriving DecidableEq

-- ==========================
-- bank/config.py
-- ==========================

/-- MIN_TRANSACTION = "0.01" (config.py). -/
def MIN_TRANSACTION : ℚ := 1 / 100

/-- MAX_TRANSACTION = "1000000.00" (config.py). -/
def MAX_TRANSACTION : ℚ := 1000000

-- ==========================
-- bank/money.py
-- ==========================

/-- `as_money(value)`: normalize to a Decimal with 2 fractional digits using
half-even rounding. -/
def as_money (value : ℚ) : ℚ := quantizeHalfEven 2 value

/-- `validate_amount_positive_in_limits(amount)`: normalize, then raise
InvalidAmount when outside `[MIN_TRANSACTION, MAX_TRANSACTION]`. -/
def validate_amount_positive_in_limits (amount : ℚ) : Except PyExc ℚ :=
  let amt := as_money amount
  if amt < as_money MIN_TRANSACTION then .error .invalidAmount
  else if as_money MAX_TRANSACTION < amt then .error .invalidAmount
  else .ok amt

-- ==========================
-- bank/bank_account.py  (Method A: RLock-based BankAccount)
-- ==========================

/-- Lock-based account; the RLock makes each public operation atomic, so the
sequential semantics below is the per-operation semantics.  `__init__` stores
`Decimal(balance)` verbatim: no quantization is applied to the seed. -/
structure BankAccount where
  account_number : String
  balance : ℚ
  deriving DecidableEq

instance : Inhabited BankAccount := ⟨⟨"", 0⟩⟩

/-- `BankAccount(account_number, balance)`. -/
def BankAccount.init (account_number : String) (balance : ℚ) : BankAccount :=
  ⟨account_number, balance⟩

/-- `deposit`: `if amount <= 0: raise ValueError(...)` (checked before the lock
is acquired); then, inside the lock, `self._balance += amount`.  Note: raises
the built-in ValueError, not bank.errors.InvalidAmount, and does not
re-quantize the balance. -/
def BankAccount.deposit (a : BankAccount) (amount : ℚ) :
    Except PyExc BankAccount :=
  if amount ≤ 0 then .error .valueError
  else .ok { a with balance := a.balance + amount }

/-- `withdraw`: validate positivity (ValueError), then inside the lock raise the
module-local InsufficientFunds when `self._balance < amount`, else subtract. -/
def BankAccount.withdraw (a : BankAccount) (amount : ℚ) :
    Except PyExc BankAccount :=
  if amount ≤ 0 then .error .valueError
  else if a.balance < amount then .error .insufficientFundsLocal
  else .ok { a with balance := a.balance - amount }

/-- `get_balance`: returns `Decimal(self._balance)`, the same value. -/
def BankAccount.get_balance (a : BankAccount) : ℚ := a.balance

/-- `transfer_to`: `self is other` raises ValueError; non-positive amount raises
ValueError; then both locks are taken in canonical account_number order (the
acquisition order does not affect the sequential outcome, only deadlock
freedom); with both locks held, `self._balance < amount` raises the
module-local InsufficientFunds, else debit self and credit other.
`sameObject` models the Python identity test `self is other`. -/
def BankAccount.transfer_to (self other : BankAccount) (sameObject : Bool)
    (amount : ℚ) : Except PyExc (BankAccount × BankAccount) :=
  if sameObject then .error .valueError
  else if amount ≤ 0 then .error .valueError
  else if self.balance < amount then .error .insufficientFundsLocal
  else .ok ({ self with balance := self.balance - amount },
            { other with balance := other.balance + amount })

-- ==========================
-- bank/bank_account_actor.py  (Method B: actor-based BankAccountActor)
-- ==========================

/-- Actor-based account.  `__init__` normalizes the seed with `as_money` and
starts the worker thread.  The mailbox plus single worker serializes all
message handling, so the per-message semantics below is sequential. -/
structure BankAccountActor where
  account_number : String
  balance : ℚ
  deriving DecidableEq

instance : Inhabited BankAccountActor := ⟨⟨"", 0⟩⟩

/-- `BankAccountActor(account_number, balance)`. -/
def BankAccountActor.init (account_number : String) (balance : ℚ) :
    BankAccountActor :=
  ⟨account_number, as_money balance⟩

/-- Messages understood by the actor worker loop. -/
inductive ActorOp where
  | deposit (amount : ℚ)
  | withdraw (amount : ℚ)
  | balance
  | unknownOp
  deriving DecidableEq

/-- One iteration of `_worker` on one dequeued message: returns the new actor
state and the reply put on the per-call reply queue (`("ok", payload)` as
`.ok`, `("err", e)` as `.error e`).  Failures never escape the loop. -/
def actorWorkerHandle (a : BankAccountActor) (op : ActorOp) :
    BankAccountActor × Except PyExc (Option ℚ) :=
  match op with
  | .deposit amount =>
    match validate_amount_positive_in_limits amount with
    | .error e => (a, .error e)
    | .ok amt => ({ a with balance := as_money (a.balance + amt) }, .ok none)
  | .withdraw amount =>
    match validate_amount_positive_in_limits amount with
    | .error e => (a, .error e)
    | .ok amt =>
      if a.balance < amt then (a, .error .insufficientFunds)
      else ({ a with balance := as_money (a.balance - amt) }, .ok none)
  | .balance => (a, .ok (some (as_money a.balance)))
  | .unknownOp => (a, .error .valueError)

/-- `_call(op, **kwargs)`: enqueue `(op, kwargs, reply)` — the live worker will
process the message and mutate the actor state — then evaluate
`reply.get(timeout=cfg.ACTOR_CALL_TIMEOUT_SEC)`.  Since config.py defines no
ACTOR_CALL_TIMEOUT_SEC, evaluating the timeout argument raises AttributeError,
which the surrounding `except Empty` clause does not catch, so every call
observes AttributeError and the reply is discarded.  The first component is
the actor state after the worker processed the enqueued message. -/
def BankAccountActor.call (a : BankAccountActor) (op : ActorOp) :
    BankAccountActor × Except PyExc (Option ℚ) :=
  let processed := actorWorkerHandle a op
  (processed.1, .error .attrError)

/-- `get_balance()`: `self._call("balance")`.  The balance message leaves the
actor state unchanged, so only the call result is returned. -/
def BankAccountActor.get_balance (a : BankAccountActor) : Except PyExc ℚ :=
  match (a.call .balance).2 with
  | .ok (some b) => .ok b
  | .ok none => .ok 0
  | .error e => .error e

/-- `deposit(amount)`: `self._call("deposit", amount=amount)`. -/
def BankAccountActor.deposit (a : BankAccountActor) (amount : ℚ) :
    BankAccountActor × Except PyExc Unit :=
  let c := a.call (.deposit amount)
  (c.1, match c.2 with | .ok _ => .ok () | .error e => .error e)

/-- `withdraw(amount)`: `self._call("withdraw", amount=amount)`. -/
def BankAccountActor.withdraw (a : BankAccountActor) (amount : ℚ) :
    BankAccountActor × Except PyExc Unit :=
  let c := a.call (.withdraw amount)
  (c.1, match c.2 with | .ok _ => .ok () | .error e => .error e)

/-- `transfer_to(other, amount)`: validate, reject `self is other`
(`sameObject`), then the saga — `self.withdraw(amt)`; if it succeeds,
`other.deposit(amt)`; if the deposit raises, compensate with
`self.deposit(amt)` and re-raise the original exception (the compensating
deposit may itself raise, in which case its exception propagates instead).
Returns the post-call states of both actors and the outcome the caller sees. -/
def BankAccountActor.transfer_to (self other : BankAccountActor)
    (sameObject : Bool) (amount : ℚ) :
    BankAccountActor × BankAccountActor × Except PyExc Unit :=
  match validate_amount_positive_in_limits amount with
  | .error e => (self, other, .error e)
  | .ok amt =>
    if sameObject then (self, other, .error .valueError)
    else
      let w := self.withdraw amt
      match w.2 with
      | .error e => (w.1, other, .error e)
      | .ok _ =>
        let d := other.deposit amt
        match d.2 with
        | .ok _ => (w.1, d.1, .ok ())
        | .error e =>
          let comp := w.1.deposit amt
          match comp.2 with
          | .error e2 => (comp.1, d.1, .error e2)
          | .ok _ => (comp.1, d.1, .error e)

-- ==========================
-- bank/transaction_simulator.py
-- ==========================

/-- Shared run metrics guarded by `self._mtx` in the Python code.  The latency
list collects per-operation samples in completion order; only its multiset
matters, because `run()` sorts it before computing statistics. -/
structure SimMetrics where
  attempted : ℕ
  succeeded : ℕ
  failed : ℕ
  insufficient_funds : ℕ
  invalid_amount : ℕ
  same_account : ℕ
  other : ℕ
  latencies : List ℚ
  deriving DecidableEq

/-- Metrics at `__init__`: all counters 0, no latency samples. -/
def SimMetrics.start : SimMetrics := ⟨0, 0, 0, 0, 0, 0, 0, []⟩

/-- The tail of `_do_transfer` / `_do_dw`: record the latency, bump attempted,
and classify the outcome.  The simulator imports InsufficientFunds and
InvalidAmount from bank.errors, so only those two classes are recognized; any
other exception (ValueError, AttributeError, the module-local InsufficientFunds
of bank_account.py, TimeoutError, ...) falls to `except Exception` and is
counted under other. -/
def SimMetrics.record (m : SimMetrics) (latency : ℚ)
    (r : Except PyExc Unit) : SimMetrics :=
  let m2 := { m with attempted := m.attempted + 1,
                     latencies := m.latencies ++ [latency] }
  match r with
  | .ok _ => { m2 with succeeded := m2.succeeded + 1 }
  | .error .insufficientFunds =>
    { m2 with failed := m2.failed + 1,
              insufficient_funds := m2.insufficient_funds + 1 }
  | .error .invalidAmount =>
    { m2 with failed := m2.failed + 1,
              invalid_amount := m2.invalid_amount + 1 }
  | .error _ => { m2 with failed := m2.failed + 1, other := m2.other + 1 }

/-- The early-return branch of `_do_transfer` when `src is dst`: attempted and
failed are bumped and same_account is counted, with no latency sample. -/
def SimMetrics.recordSameAccount (m : SimMetrics) : SimMetrics :=
  { m with attempted := m.attempted + 1,
           failed := m.failed + 1,
           same_account := m.same_account + 1 }

/-- The duck-typed account capability set the simulator uses.  Each operation
returns the post-call account state(s) and the outcome the caller observes;
`transfer_to` is invoked by the simulator only on two distinct objects, so the
`self is other` test inside the account is applied with `sameObject = false`. -/
structure AccountModel (α : Type) where
  deposit : α → ℚ → α × Except PyExc Unit
  withdraw : α → ℚ → α × Except PyExc Unit
  transfer_to : α → α → ℚ → α × α × Except PyExc Unit
  get_balance : α → Except PyExc ℚ

/-- The lock-based accounts as seen through the capability set. -/
def lockedModel : AccountModel BankAccount where
  deposit a amt :=
    match a.deposit amt with
    | .ok a2 => (a2, .ok ())
    | .error e => (a, .error e)
  withdraw a amt :=
    match a.withdraw amt with
    | .ok a2 => (a2, .ok ())
    | .error e => (a, .error e)
  transfer_to a b amt :=
    match BankAccount.transfer_to a b false amt with
    | .ok p => (p.1, p.2, .ok ())
    | .error e => (a, b, .error e)
  get_balance a := .ok a.get_balance

/-- The actor-based accounts as seen through the capability set. -/
def actorModel : AccountModel BankAccountActor where
  deposit a amt := a.deposit amt
  withdraw a amt := a.withdraw amt
  transfer_to a b amt := BankAccountActor.transfer_to a b false amt
  get_balance a := a.get_balance

/-- The pseudo-random draws one loop iteration of `_worker` consumes, plus the
wall-clock latency measured for the operation.  `transferRoll` is the value of
`self._rng.random()` compared against transfer_prob (a float in `[0,1)`);
`r1`, `r2`, `centsDraw` are raw draws that the helpers reduce to ranges exactly
as the Python rng does; `dwRoll` is the result of `self._rng.random() < 0.5`
choosing deposit over withdraw. -/
structure OpDecision where
  transferRoll : ℚ
  r1 : ℕ
  r2 : ℕ
  centsDraw : ℕ
  dwRoll : Bool
  latency : ℚ
  deriving DecidableEq

/-- Model of `self._rng.sample(self.accounts, 2)` for `n = len(accounts)`:
two draws without replacement yield two distinct positions — the first
uniform over `n` positions, the second uniform over the `n - 1` remaining
ones.  `_pick_two` takes this branch whenever `n ≥ 2`; its one-account branch
is unreachable from `_worker`, which calls `_do_transfer` only when `n ≥ 2`. -/
def pickTwo (n r1 r2 : ℕ) : ℕ × ℕ :=
  let i := r1 % n
  let j0 := r2 % (n - 1)
  (i, if i ≤ j0 then j0 + 1 else j0)

/-- `_amount()`: `cents = rng.randint(1, 5000)` (modelled as a raw draw reduced
into `[1, 5000]`), then `Decimal(cents).scaleb(-2).quantize(Decimal("0.01"),
rounding=ROUND_HALF_EVEN)`, i.e. exactly `cents / 100`. -/
def TransactionSimulator.amount (centsDraw : ℕ) : ℚ :=
  let cents : ℕ := centsDraw % 5000 + 1
  quantizeHalfEven 2 ((cents : ℚ) / 100)

/-- In-flight simulator state: the account list (positions never change; the
Python object identity `src is dst` coincides with position equality because
the configured account set contains no duplicate objects) and the metrics. -/
structure SimState (α : Type) where
  accounts : List α
  metrics : SimMetrics

/-- `_do_transfer`: sample two positions, take the same_account early return if
they coincide (provably never, see `pickTwo_ne`), otherwise draw an amount,
run `src.transfer_to(dst, amt)` and record the classified outcome. -/
def TransactionSimulator.doTransfer {α : Type} [Inhabited α]
    (M : AccountModel α) (st : SimState α) (d : OpDecision) : SimState α :=
  let n := st.accounts.length
  let ij := pickTwo n d.r1 d.r2
  if ij.1 = ij.2 then
    { st with metrics := st.metrics.recordSameAccount }
  else
    let amt := TransactionSimulator.amount d.centsDraw
    let src := st.accounts.getD ij.1 default
    let dst := st.accounts.getD ij.2 default
    let res := M.transfer_to src dst amt
    { accounts := (st.accounts.set ij.1 res.1).set ij.2 res.2.1,
      metrics := st.metrics.record d.latency res.2.2 }

/-- `_do_dw`: choose one account (`rng.choice`), draw an amount, choose deposit
or withdraw 50/50, run it and record the classified outcome. -/
def TransactionSimulator.doDW {α : Type} [Inhabited α]
    (M : AccountModel α) (st : SimState α) (d : OpDecision) : SimState α :=
  let i := d.r1 % st.accounts.length
  let acc := st.accounts.getD i default
  let amt := TransactionSimulator.amount d.centsDraw
  let res := if d.dwRoll then M.deposit acc amt else M.withdraw acc amt
  { accounts := st.accounts.set i res.1,
    metrics := st.metrics.record d.latency res.2 }

/-- One iteration of the `_worker` loop:
`if self._rng.random() < self.transfer_prob and len(self.accounts) >= 2`. -/
def TransactionSimulator.simStep {α : Type} [Inhabited α] (M : AccountModel α)
    (p : ℚ) (st : SimState α) (d : OpDecision) : SimState α :=
  if d.transferRoll < p ∧ 2 ≤ st.accounts.length then
    TransactionSimulator.doTransfer M st d
  else
    TransactionSimulator.doDW M st d

/-- The whole concurrent phase of `run()`.  Account operations are atomic (the
lock makes them so in Method A; the single worker serializes them in Method B)
and every metrics update happens under `self._mtx`, so an arbitrary
interleaving of the `users × ops_per_user` operations is some sequence of
atomic operations; `ds` is that sequence in global completion order.
`transfer_prob` is clamped into `[0,1]` as in `__init__`. -/
def TransactionSimulator.simRun {α : Type} [Inhabited α] (M : AccountModel α)
    (accounts : List α) (transfer_prob : ℚ) (ds : List OpDecision) :
    SimState α :=
  let p := max 0 (min 1 transfer_prob)
  ds.foldl (TransactionSimulator.simStep M p) ⟨accounts, SimMetrics.start⟩

/-- Accumulator of the `_total` helper in `run()`: sum `Decimal(str(bal))` over
the accounts.  When `get_balance` raises, `_total` catches the exception once,
sleeps, and retries the same call; the retry returns the same result in this
state-independent setting, so a failing account propagates its exception. -/
def TransactionSimulator.totalAux {α : Type} (M : AccountModel α) :
    ℚ → List α → Except PyExc ℚ
  | t, [] => .ok t
  | t, a :: rest =>
    match M.get_balance a with
    | .error e => .error e
    | .ok b => TransactionSimulator.totalAux M (t + b) rest

/-- `_total()`: the accumulated sum quantized to two digits. -/
def TransactionSimulator.total {α : Type} (M : AccountModel α) (l : List α) :
    Except PyExc ℚ :=
  match TransactionSimulator.totalAux M 0 l with
  | .error e => .error e
  | .ok t => .ok (quantizeHalfEven 2 t)

/-- The index `int(0.95 * (len(lats) - 1))` used for the 95th percentile.  The
double product of 0.95 and a small integer truncates to the exact floor
`19 * (n - 1) / 20` for every feasible sample count, so the index is modelled
as that Nat floor division. -/
def p95Index (n : ℕ) : ℕ := 19 * (n - 1) / 20

/-- The stats dict `run()` returns, with the nested attempted/succeeded/failed
dicts flattened into fields. -/
structure RunStats where
  attempted : ℕ
  succeeded : ℕ
  failed : ℕ
  failed_insufficient_funds : ℕ
  failed_invalid_amount : ℕ
  failed_same_account : ℕ
  failed_other : ℕ
  ops_per_sec : ℚ
  avg_latency_ms : ℚ
  p95_latency_ms : ℚ
  total_drift : ℚ
  deriving DecidableEq

/-- The metric computations at the end of `run()` (lines 206-226):
`elapsed = max(t1 - t0, 1e-9)`, `drift = (end_total - start_total).quantize`,
`lats = sorted(self._latencies)` (Python sorted returns the unique
nondecreasing rearrangement, here computed by insertion sort), average and
95th-percentile latency in ms rounded half-even to 3 digits (Python round),
and `ops_per_sec = float(attempted) / elapsed`.  Float arithmetic on these
small quantities is modelled exactly on rationals. -/
def TransactionSimulator.buildStats (m : SimMetrics)
    (startTotal endTotal elapsedRaw : ℚ) : RunStats :=
  let elapsed := max elapsedRaw (1 / 1000000000)
  let drift := quantizeHalfEven 2 (endTotal - startTotal)
  let lats := List.insertionSort (· ≤ ·) m.latencies
  let avg_ms : ℚ :=
    if lats.length = 0 then 0
    else quantizeHalfEven 3 (lats.sum / lats.length * 1000)
  let p95_ms : ℚ :=
    if lats.length = 0 then 0
    else quantizeHalfEven 3 (lats.getD (p95Index lats.length) 0 * 1000)
  { attempted := m.attempted,
    succeeded := m.succeeded,
    failed := m.failed,
    failed_insufficient_funds := m.insufficient_funds,
    failed_invalid_amount := m.invalid_amount,
    failed_same_account := m.same_account,
    failed_other := m.other,
    ops_per_sec := (m.attempted : ℚ) / elapsed,
    avg_latency_ms := avg_ms,
    p95_latency_ms := p95_ms,
    total_drift := drift }

/-- `run()`: compute the starting total, run the workers, compute the ending
total and build the stats dict.  A `get_balance` exception inside `_total`
(after its single retry) propagates out of `run()`.  `elapsedRaw` is the raw
wall-clock `t1 - t0`. -/
def TransactionSimulator.run {α : Type} [Inhabited α] (M : AccountModel α)
    (accounts : List α) (transfer_prob : ℚ) (ds : List OpDecision)
    (elapsedRaw : ℚ) : Except PyExc RunStats :=
  match TransactionSimulator.total M accounts with
  | .error e => .error e
  | .ok startTotal =>
    let final := TransactionSimulator.simRun M accounts transfer_prob ds
    match TransactionSimulator.total M final.accounts with
    | .error e => .error e
    | .ok endTotal =>
      .ok (TransactionSimulator.buildStats final.metrics startTotal endTotal
        elapsedRaw)

/-- The throughput formula as the spec states it (spec section 4.4):
succeeded operations divided by wall-clock elapsed time.  Written from the
words of the spec, to be compared with the formula `run()` implements. -/
def specOpsPerSec (succeeded : ℕ) (elapsed : ℚ) : ℚ := (succeeded : ℚ) / elapsed

/-- The 95th-percentile formula as the spec states it: the sample at rank
`⌈0.95 * (n - 1)⌉` of the sorted latency list, converted to milliseconds.
Written from the words of the spec, to be compared with `buildStats`. -/
def specP95ms (latencies : List ℚ) : ℚ :=
  let lats := List.insertionSort (· ≤ ·) latencies
  if lats.length = 0 then 0
  else lats.getD ⌈(19 * ((lats.length : ℚ) - 1)) / 20⌉₊ 0 * 1000

/-- Sum of the balances of a list of locked accounts; the raw quantity whose
quantization `_total()` returns. -/
def balTotal (l : List BankAccount) : ℚ := (l.map BankAccount.balance).sum

-- ==========================
-- Helper lemmas
-- ==========================

/-- Quantizing to `s` digits is exact on a value that already is an integer
multiple of `10 ^ (-s)`. -/
theorem quantizeHalfEven_int_div (s : ℕ) (k : ℤ) :
    quantizeHalfEven s ((k : ℚ) / 10 ^ s) = (k : ℚ) / 10 ^ s := by
  have hp : (10 : ℚ) ^ s ≠ 0 := by positivity
  unfold quantizeHalfEven
  have hy : (k : ℚ) / 10 ^ s * 10 ^ s = (k : ℚ) := div_mul_cancel₀ _ hp
  simp only [hy, Int.floor_intCast, sub_self]
  norm_num

theorem quantizeHalfEven_zero (s : ℕ) : quantizeHalfEven s 0 = 0 := by
  have h := quantizeHalfEven_int_div s 0
  simpa using h

/-- The result of quantizing to two digits is always a Money value. -/
theorem isMoney_quantizeHalfEven (x : ℚ) : isMoney (quantizeHalfEven 2 x) := by
  unfold quantizeHalfEven isMoney
  set r : ℤ := if x * 10 ^ 2 - (⌊x * 10 ^ 2⌋ : ℚ) < 1 / 2 then ⌊x * 10 ^ 2⌋
    else if 1 / 2 < x * 10 ^ 2 - (⌊x * 10 ^ 2⌋ : ℚ) then ⌊x * 10 ^ 2⌋ + 1
    else if ⌊x * 10 ^ 2⌋ % 2 = 0 then ⌊x * 10 ^ 2⌋ else ⌊x * 10 ^ 2⌋ + 1 with hr
  have h100 : (100 : ℚ) ≠ 0 := by norm_num
  have : (r : ℚ) / 10 ^ 2 * 100 = (r : ℚ) := by
    rw [show ((10 : ℚ) ^ 2) = 100 by norm_num, div_mul_cancel₀ _ h100]
  simp only [this]
  exact Rat.den_intCast r

theorem isMoney_add {a b : ℚ} (ha : isMoney a) (hb : isMoney b) :
    isMoney (a + b) := by
  unfold isMoney at *
  have ha' : ((a * 100).num : ℚ) = a * 100 := Rat.den_eq_one_iff _ |>.mp ha
  have hb' : ((b * 100).num : ℚ) = b * 100 := Rat.den_eq_one_iff _ |>.mp hb
  have : (a + b) * 100 = (((a * 100).num + (b * 100).num : ℤ) : ℚ) := by
    push_cast
    rw [ha', hb']; ring
  rw [this]
  exact Rat.den_intCast _

theorem isMoney_sub {a b : ℚ} (ha : isMoney a) (hb : isMoney b) :
    isMoney (a - b) := by
  unfold isMoney at *
  have ha' : ((a * 100).num : ℚ) = a * 100 := Rat.den_eq_one_iff _ |>.mp ha
  have hb' : ((b * 100).num : ℚ) = b * 100 := Rat.den_eq_one_iff _ |>.mp hb
  have : (a - b) * 100 = (((a * 100).num - (b * 100).num : ℤ) : ℚ) := by
    push_cast
    rw [ha', hb']; ring
  rw [this]
  exact Rat.den_intCast _

theorem isMoney_as_money (x : ℚ) : isMoney (as_money x) :=
  isMoney_quantizeHalfEven x

/-- The two sampled positions are always distinct. -/
theorem pickTwo_ne (n r1 r2 : ℕ) :
    (pickTwo n r1 r2).1 ≠ (pickTwo n r1 r2).2 := by
  unfold pickTwo
  dsimp only
  split
  · next h => omega
  · next h => omega

/-- A Money value is an integer number of pence. -/
theorem isMoney_iff (x : ℚ) : isMoney x ↔ ∃ k : ℤ, x = (k : ℚ) / 100 := by
  constructor
  · intro h
    refine ⟨(x * 100).num, ?_⟩
    have h' : ((x * 100).num : ℚ) = x * 100 := Rat.den_eq_one_iff _ |>.mp h
    rw [h']
    field_simp
  · rintro ⟨k, rfl⟩
    unfold isMoney
    have h100 : (100 : ℚ) ≠ 0 := by norm_num
    rw [div_mul_cancel₀ _ h100]
    exact Rat.den_intCast k

/-- Quantizing to two digits fixes every Money value; in particular `as_money`
is idempotent. -/
theorem as_money_eq_self {x : ℚ} (h : isMoney x) : as_money x = x := by
  obtain ⟨k, rfl⟩ := (isMoney_iff x).mp h
  unfold as_money
  have h2 : ((k : ℚ) / 100) = (k : ℚ) / 10 ^ 2 := by norm_num
  rw [h2, quantizeHalfEven_int_div]

/-- Validation succeeds on a normalized in-range amount and returns it. -/
theorem validate_ok {x : ℚ} (h : isMoney x) (h1 : MIN_TRANSACTION ≤ x)
    (h2 : x ≤ MAX_TRANSACTION) :
    validate_amount_positive_in_limits x = .ok x := by
  have hmin : as_money MIN_TRANSACTION = MIN_TRANSACTION :=
    as_money_eq_self ((isMoney_iff _).mpr ⟨1, by norm_num [MIN_TRANSACTION]⟩)
  have hmax : as_money MAX_TRANSACTION = MAX_TRANSACTION :=
    as_money_eq_self ((isMoney_iff _).mpr ⟨100000000, by norm_num [MAX_TRANSACTION]⟩)
  unfold validate_amount_positive_in_limits
  rw [as_money_eq_self h, hmin, hmax, if_neg (not_lt.mpr h1), if_neg (not_lt.mpr h2)]

/-- An actor withdraw call: the worker handles the message, the caller sees
AttributeError. -/
theorem actor_withdraw_eq (a : BankAccountActor) (x : ℚ) :
    BankAccountActor.withdraw a x =
      ((actorWorkerHandle a (.withdraw x)).1, .error .attrError) := by
  unfold BankAccountActor.withdraw BankAccountActor.call
  rfl

/-- An actor deposit call: the worker handles the message, the caller sees
AttributeError. -/
theorem actor_deposit_eq (a : BankAccountActor) (x : ℚ) :
    BankAccountActor.deposit a x =
      ((actorWorkerHandle a (.deposit x)).1, .error .attrError) := by
  unfold BankAccountActor.deposit BankAccountActor.call
  rfl

theorem actor_withdraw_snd (a : BankAccountActor) (x : ℚ) :
    (BankAccountActor.withdraw a x).2 = .error .attrError := by
  unfold BankAccountActor.withdraw BankAccountActor.call
  rfl

theorem actor_get_balance_eq (a : BankAccountActor) :
    BankAccountActor.get_balance a = .error .attrError := by
  unfold BankAccountActor.get_balance BankAccountActor.call
  rfl

/-- Worker handling of a withdraw message with sufficient funds. -/
theorem actorWorkerHandle_withdraw_suff (a : BankAccountActor) (x : ℚ)
    (hv : validate_amount_positive_in_limits x = .ok x) (h : ¬ a.balance < x) :
    actorWorkerHandle a (.withdraw x) =
      ({ a with balance := as_money (a.balance - x) }, .ok none) := by
  unfold actorWorkerHandle
  dsimp only
  rw [hv]
  dsimp only
  rw [if_neg h]

/-- Worker handling of a deposit message with a valid amount. -/
theorem actorWorkerHandle_deposit_ok (a : BankAccountActor) (x : ℚ)
    (hv : validate_amount_positive_in_limits x = .ok x) :
    actorWorkerHandle a (.deposit x) =
      ({ a with balance := as_money (a.balance + x) }, .ok none) := by
  unfold actorWorkerHandle
  dsimp only
  rw [hv]

/-- Once the amount validates, the saga in `transfer_to` stops at the failed
withdraw call: the withdrawn (or unchanged) source state and the untouched
destination are returned together with AttributeError; the deposit and the
compensation steps are never reached. -/
theorem actor_transfer_after_validate (self other : BankAccountActor) (x : ℚ)
    (hv : validate_amount_positive_in_limits x = .ok x) :
    BankAccountActor.transfer_to self other false x =
      ((self.withdraw x).1, other, .error .attrError) := by
  unfold BankAccountActor.transfer_to
  rw [hv]
  dsimp only
  rw [actor_withdraw_snd]
  simp only [Bool.false_eq_true, if_false]

-- ==========================
-- Claim theorems
-- ==========================

/-- Claim C2 (code_bug evidence): every public actor call — get_balance,
deposit, withdraw, each routed through `_call` — fails with AttributeError,
because `_call` evaluates the undefined `cfg.ACTOR_CALL_TIMEOUT_SEC`; it never
completes normally and never raises the Timeout the claim describes, even with
a live worker and a well-formed request. -/
theorem actor_call_attrError (a : BankAccountActor) (op : ActorOp) :
    (BankAccountActor.call a op).2 = .error .attrError ∧
    (∀ r : Option ℚ, (BankAccountActor.call a op).2 ≠ .ok r) ∧
    (BankAccountActor.call a op).2 ≠ .error .timeoutError :=
  ⟨rfl, fun r => by simp [BankAccountActor.call], by simp [BankAccountActor.call]⟩

/-- Claim C5 (code_bug evidence): on the locked model, `deposit(-10.00)` on an
account seeded at 100.00 raises the built-in ValueError — a different exception
class from bank.errors.InvalidAmount, which the claim (and the test suite
test_error_conditions) expects. -/
theorem locked_deposit_negative_raises_valueError :
    BankAccount.deposit (BankAccount.init "T002" 100) (-10) =
      .error .valueError ∧
    PyExc.valueError ≠ PyExc.invalidAmount := by
  refine ⟨?_, by decide⟩
  norm_num [BankAccount.deposit, BankAccount.init]

/-- Claim C8 (confirmed): for two distinct locked accounts, a positive amount
within the source balance is debited from the source and credited to the
destination exactly, preserving the combined balance; an amount above the
source balance fails with the InsufficientFunds class of bank_account.py and
changes nothing (the error return leaves both records untouched); and the
concrete scenario 200.00 / 50.00 with transfer_to(75.00) ends 125.00 / 125.00. -/
theorem locked_transfer_exact (a b : BankAccount) (amt : ℚ) :
    (0 < amt → amt ≤ a.balance →
      BankAccount.transfer_to a b false amt =
        .ok ({ a with balance := a.balance - amt },
             { b with balance := b.balance + amt }) ∧
      (a.balance - amt) + (b.balance + amt) = a.balance + b.balance) ∧
    (0 < amt → a.balance < amt →
      BankAccount.transfer_to a b false amt = .error .insufficientFundsLocal) ∧
    BankAccount.transfer_to (BankAccount.init "T_LOCK_1" 200)
      (BankAccount.init "T_LOCK_2" 50) false 75 =
      .ok (BankAccount.init "T_LOCK_1" 125, BankAccount.init "T_LOCK_2" 125) := by
  refine ⟨fun h1 h2 => ⟨?_, by ring⟩, fun h1 h2 => ?_, ?_⟩
  · unfold BankAccount.transfer_to
    rw [if_neg (by simp), if_neg (not_le.mpr h1), if_neg (not_lt.mpr h2)]
  · unfold BankAccount.transfer_to
    rw [if_neg (by simp), if_neg (not_le.mpr h1), if_pos h2]
  · norm_num [BankAccount.transfer_to, BankAccount.init]

/-- Witness for C8 at the concrete input 200.00 / 50.00 / 75.00. -/
theorem locked_transfer_exact_witness :
    BankAccount.transfer_to (BankAccount.init "X" 200) (BankAccount.init "Y" 50)
        false 75 =
      .ok ({ BankAccount.init "X" 200 with
              balance := (BankAccount.init "X" 200).balance - 75 },
           { BankAccount.init "Y" 50 with
              balance := (BankAccount.init "Y" 50).balance + 75 }) ∧
    ((BankAccount.init "X" 200).balance - 75) +
        ((BankAccount.init "Y" 50).balance + 75) =
      (BankAccount.init "X" 200).balance + (BankAccount.init "Y" 50).balance :=
  (locked_transfer_exact (BankAccount.init "X" 200) (BankAccount.init "Y" 50)
    75).1 (by norm_num) (by norm_num [BankAccount.init])

/-- Claim C9 (code_bug evidence): the actor saga never reaches its
compensation step.  In `transfer_to` on actors seeded 200.00 and 50.00 with
amount 75.00, the withdraw `_call` raises AttributeError after the worker has
already debited the source, `transfer_to` re-raises without compensating, and
the source ends at 125.00 — changed — although the call failed.  This
contradicts the claimed post-condition (source unchanged unless the transfer
fully succeeded). -/
theorem actor_transfer_source_debited_on_failure :
    BankAccountActor.transfer_to (BankAccountActor.init "T_ACTOR_1" 200)
      (BankAccountActor.init "T_ACTOR_2" 50) false 75 =
      (⟨"T_ACTOR_1", 125⟩, ⟨"T_ACTOR_2", 50⟩, .error .attrError) ∧
    (BankAccountActor.init "T_ACTOR_1" 200).balance ≠ (125 : ℚ) := by
  constructor
  · have h75 : isMoney (75 : ℚ) := (isMoney_iff _).mpr ⟨7500, by norm_num⟩
    have v75 : validate_amount_positive_in_limits 75 = .ok 75 :=
      validate_ok h75 (by norm_num [MIN_TRANSACTION]) (by norm_num [MAX_TRANSACTION])
    have am200 : as_money (200 : ℚ) = 200 :=
      as_money_eq_self ((isMoney_iff _).mpr ⟨20000, by norm_num⟩)
    have am50 : as_money (50 : ℚ) = 50 :=
      as_money_eq_self ((isMoney_iff _).mpr ⟨5000, by norm_num⟩)
    have hinit1 : BankAccountActor.init "T_ACTOR_1" 200 = ⟨"T_ACTOR_1", 200⟩ := by
      rw [BankAccountActor.init, am200]
    have hinit2 : BankAccountActor.init "T_ACTOR_2" 50 = ⟨"T_ACTOR_2", 50⟩ := by
      rw [BankAccountActor.init, am50]
    rw [hinit1, hinit2, actor_transfer_after_validate _ _ _ v75, actor_withdraw_eq,
      actorWorkerHandle_withdraw_suff _ _ v75 (by norm_num)]
    have am125 : as_money ((200 : ℚ) - 75) = 125 := by
      rw [show ((200 : ℚ) - 75) = 125 by norm_num]
      exact as_money_eq_self ((isMoney_iff _).mpr ⟨12500, by norm_num⟩)
    rw [am125]
  · have am200 : as_money (200 : ℚ) = 200 :=
      as_money_eq_self ((isMoney_iff _).mpr ⟨20000, by norm_num⟩)
    rw [BankAccountActor.init]
    dsimp only
    rw [am200]
    norm_num

/-- Claim C6 (counterexample): the locked-model constructor stores the seed
verbatim; seeding with 100.005 yields a balance that is not a normalized
two-digit Money value, so not every balance in the system is the result of
normalization. -/
theorem locked_init_unnormalized_counterexample :
    ¬ isMoney (BankAccount.init "A00" (100 + 5 / 1000)).balance := by
  intro h
  obtain ⟨k, hk⟩ := (isMoney_iff _).mp h
  have h2 : (20001 : ℚ) / 200 = (k : ℚ) / 100 := by
    rw [← hk]; norm_num [BankAccount.init]
  have h3 : ((2000100 : ℤ) : ℚ) = ((k * 200 : ℤ) : ℚ) := by
    push_cast
    field_simp at h2
    linarith
  have h4 : (2000100 : ℤ) = k * 200 := by exact_mod_cast h3
  omega

/-- Claim C6 (amended): the actor model normalizes at construction and after
every worker-handled operation, unconditionally for deposit/withdraw results;
the locked model applies no normalization at all — its balances merely stay
two-digit Money values when the seed and every accepted amount already are. -/
theorem money_normalization_amended :
    (∀ (num : String) (bal : ℚ), isMoney (BankAccountActor.init num bal).balance) ∧
    (∀ (a : BankAccountActor) (op : ActorOp), isMoney a.balance →
      isMoney (actorWorkerHandle a op).1.balance) ∧
    (∀ (a : BankAccount) (x : ℚ) (a' : BankAccount), isMoney a.balance →
      isMoney x → a.deposit x = .ok a' → isMoney a'.balance) ∧
    (∀ (a : BankAccount) (x : ℚ) (a' : BankAccount), isMoney a.balance →
      isMoney x → a.withdraw x = .ok a' → isMoney a'.balance) ∧
    (∀ (a b : BankAccount) (so : Bool) (x : ℚ) (a' b' : BankAccount),
      isMoney a.balance → isMoney b.balance → isMoney x →
      BankAccount.transfer_to a b so x = .ok (a', b') →
      isMoney a'.balance ∧ isMoney b'.balance) := by
  refine ⟨fun num bal => isMoney_as_money bal, ?_, ?_, ?_, ?_⟩
  · intro a op h
    cases op with
    | deposit x =>
      unfold actorWorkerHandle
      dsimp only
      cases hv : validate_amount_positive_in_limits x with
      | error e => exact h
      | ok amt => exact isMoney_as_money _
    | withdraw x =>
      unfold actorWorkerHandle
      dsimp only
      cases hv : validate_amount_positive_in_limits x with
      | error e => exact h
      | ok amt =>
        dsimp only
        split
        · exact h
        · exact isMoney_as_money _
    | balance => exact h
    | unknownOp => exact h
  · intro a x a' ha hx hd
    unfold BankAccount.deposit at hd
    by_cases h0 : x ≤ 0
    · rw [if_pos h0] at hd; exact absurd hd (by simp)
    · rw [if_neg h0] at hd
      simp only [Except.ok.injEq] at hd
      subst hd
      exact isMoney_add ha hx
  · intro a x a' ha hx hw
    unfold BankAccount.withdraw at hw
    by_cases h0 : x ≤ 0
    · rw [if_pos h0] at hw; exact absurd hw (by simp)
    · rw [if_neg h0] at hw
      by_cases h1 : a.balance < x
      · rw [if_pos h1] at hw; exact absurd hw (by simp)
      · rw [if_neg h1] at hw
        simp only [Except.ok.injEq] at hw
        subst hw
        exact isMoney_sub ha hx
  · intro a b so x a' b' ha hb hx ht
    unfold BankAccount.transfer_to at ht
    by_cases hs : so = true
    · rw [if_pos hs] at ht; exact absurd ht (by simp)
    · rw [if_neg hs] at ht
      by_cases h0 : x ≤ 0
      · rw [if_pos h0] at ht; exact absurd ht (by simp)
      · rw [if_neg h0] at ht
        by_cases h1 : a.balance < x
        · rw [if_pos h1] at ht; exact absurd ht (by simp)
        · rw [if_neg h1] at ht
          simp only [Except.ok.injEq, Prod.mk.injEq] at ht
          obtain ⟨ht1, ht2⟩ := ht
          subst ht1; subst ht2
          exact ⟨isMoney_sub ha hx, isMoney_add hb hx⟩

/-- Witness for the amended C6: an actor seeded with 7/3 holds normalized
money, and a locked deposit of 0.50 on a 100.00 balance stays a Money value. -/
theorem money_normalization_amended_witness :
    isMoney (BankAccountActor.init "W" (7 / 3)).balance ∧
    isMoney ((⟨"L", (201 : ℚ) / 2⟩ : BankAccount).balance) := by
  refine ⟨money_normalization_amended.1 "W" (7 / 3), ?_⟩
  exact money_normalization_amended.2.2.1 ⟨"L", 100⟩ (1 / 2) ⟨"L", 201 / 2⟩
    ((isMoney_iff _).mpr ⟨10000, by norm_num⟩)
    ((isMoney_iff _).mpr ⟨50, by norm_num⟩)
    (by norm_num [BankAccount.deposit])

-- ==========================
-- Simulator helper lemmas
-- ==========================

theorem record_attempted (m : SimMetrics) (lat : ℚ) (r : Except PyExc Unit) :
    (m.record lat r).attempted = m.attempted + 1 := by
  unfold SimMetrics.record
  cases r with
  | ok _ => rfl
  | error e => cases e <;> rfl

theorem record_same_account (m : SimMetrics) (lat : ℚ) (r : Except PyExc Unit) :
    (m.record lat r).same_account = m.same_account := by
  unfold SimMetrics.record
  cases r with
  | ok _ => rfl
  | error e => cases e <;> rfl

theorem record_latencies (m : SimMetrics) (lat : ℚ) (r : Except PyExc Unit) :
    (m.record lat r).latencies = m.latencies ++ [lat] := by
  unfold SimMetrics.record
  cases r with
  | ok _ => rfl
  | error e => cases e <;> rfl

theorem record_eval_insLocal :
    SimMetrics.record SimMetrics.start 1 (.error .insufficientFundsLocal) =
      ⟨1, 0, 1, 0, 0, 0, 1, [1]⟩ := rfl

theorem pickTwo_lt (n r1 r2 : ℕ) (h : 2 ≤ n) :
    (pickTwo n r1 r2).1 < n ∧ (pickTwo n r1 r2).2 < n := by
  unfold pickTwo
  dsimp only
  have h1 := Nat.mod_lt r1 (show 0 < n by omega)
  have h2 := Nat.mod_lt r2 (show 0 < n - 1 by omega)
  split <;> omega

theorem natCast_div100 (m : ℕ) : ((m : ℚ)) / 100 = ((m : ℤ) : ℚ) / 10 ^ 2 := by
  push_cast
  norm_num

/-- The generated amount is exactly `cents / 100` with `cents ∈ [1, 5000]`. -/
theorem amount_eq (c : ℕ) :
    TransactionSimulator.amount c = ((c % 5000 + 1 : ℕ) : ℚ) / 100 := by
  unfold TransactionSimulator.amount
  dsimp only
  rw [natCast_div100, quantizeHalfEven_int_div, ← natCast_div100]

theorem amount_pos (c : ℕ) : 0 < TransactionSimulator.amount c := by
  rw [amount_eq]
  positivity

theorem quantizeHalfEven_intCast (s : ℕ) (n : ℤ) :
    quantizeHalfEven s ((n : ℚ)) = (n : ℚ) := by
  have h := quantizeHalfEven_int_div s (n * 10 ^ s)
  have h2 : (((n * 10 ^ s : ℤ) : ℚ)) / 10 ^ s = (n : ℚ) := by
    push_cast
    field_simp
  rw [h2] at h
  exact h

theorem lockedModel_deposit_ok (a : BankAccount) (x : ℚ) (h : ¬ x ≤ 0) :
    lockedModel.deposit a x = ({ a with balance := a.balance + x }, .ok ()) := by
  unfold lockedModel
  dsimp only
  unfold BankAccount.deposit
  rw [if_neg h]

theorem lockedModel_withdraw_insufficient (a : BankAccount) (x : ℚ)
    (h0 : ¬ x ≤ 0) (h : a.balance < x) :
    lockedModel.withdraw a x = (a, .error .insufficientFundsLocal) := by
  unfold lockedModel
  dsimp only
  unfold BankAccount.withdraw
  rw [if_neg h0, if_pos h]

theorem lockedModel_transfer_ok (a b : BankAccount) (x : ℚ)
    (h0 : ¬ x ≤ 0) (h : ¬ a.balance < x) :
    lockedModel.transfer_to a b x =
      ({ a with balance := a.balance - x },
       { b with balance := b.balance + x }, .ok ()) := by
  unfold lockedModel
  dsimp only
  unfold BankAccount.transfer_to
  rw [if_neg (by simp), if_neg h0, if_neg h]

theorem lockedModel_transfer_insufficient (a b : BankAccount) (x : ℚ)
    (h0 : ¬ x ≤ 0) (h : a.balance < x) :
    lockedModel.transfer_to a b x = (a, b, .error .insufficientFundsLocal) := by
  unfold lockedModel
  dsimp only
  unfold BankAccount.transfer_to
  rw [if_neg (by simp), if_neg h0, if_pos h]

theorem getD_set_ne {α : Type} [Inhabited α] (l : List α) (i j : ℕ) (x : α)
    (hij : i ≠ j) : (l.set i x).getD j default = l.getD j default := by
  rw [List.getD_eq_getElem?_getD, List.getD_eq_getElem?_getD,
    List.getElem?_set_ne hij]

theorem balTotal_nil : balTotal [] = 0 := rfl

theorem balTotal_cons (a : BankAccount) (l : List BankAccount) :
    balTotal (a :: l) = a.balance + balTotal l := by
  unfold balTotal
  simp

theorem balTotal_set (l : List BankAccount) (i : ℕ) (x : BankAccount)
    (h : i < l.length) :
    balTotal (l.set i x) =
      balTotal l - (l.getD i default).balance + x.balance := by
  unfold balTotal
  rw [List.map_set, List.sum_set']
  rw [dif_pos (by simpa using h)]
  have hlen : i < (l.map BankAccount.balance).length := by simpa using h
  have hmap : (l.map BankAccount.balance)[i] =
      (l.getD i default).balance := by
    rw [List.getElem_map]
    congr 1
    rw [List.getD_eq_getElem?_getD, List.getElem?_eq_getElem h]
    rfl
  rw [hmap]
  ring

theorem balTotal_set_two (l : List BankAccount) (i j : ℕ) (x y : BankAccount)
    (hi : i < l.length) (hj : j < l.length) (hij : i ≠ j) :
    balTotal ((l.set i x).set j y) =
      balTotal l - (l.getD i default).balance - (l.getD j default).balance
        + x.balance + y.balance := by
  rw [balTotal_set _ j y (by simpa using hj), balTotal_set _ i x hi,
    getD_set_ne _ _ _ _ hij]
  ring

theorem totalAux_locked (l : List BankAccount) :
    ∀ t : ℚ, TransactionSimulator.totalAux lockedModel t l = .ok (t + balTotal l) := by
  induction l with
  | nil => intro t; unfold TransactionSimulator.totalAux; rw [balTotal_nil, add_zero]
  | cons a rest ih =>
    intro t
    unfold TransactionSimulator.totalAux
    have hgb : lockedModel.get_balance a = .ok a.balance := rfl
    rw [hgb]
    dsimp only
    rw [ih (t + a.balance), balTotal_cons]
    congr 1
    ring

theorem total_locked (l : List BankAccount) :
    TransactionSimulator.total lockedModel l =
      .ok (quantizeHalfEven 2 (balTotal l)) := by
  unfold TransactionSimulator.total
  rw [totalAux_locked l 0]
  dsimp only
  rw [zero_add]

/-- Every run over locked accounts succeeds and returns the stats built from
the serialized workload and the quantized before/after totals. -/
theorem run_locked_eq (accounts : List BankAccount) (p : ℚ)
    (ds : List OpDecision) (e : ℚ) :
    TransactionSimulator.run lockedModel accounts p ds e =
      .ok (TransactionSimulator.buildStats
        (TransactionSimulator.simRun lockedModel accounts p ds).metrics
        (quantizeHalfEven 2 (balTotal accounts))
        (quantizeHalfEven 2
          (balTotal (TransactionSimulator.simRun lockedModel accounts p ds).accounts))
        e) := by
  unfold TransactionSimulator.run
  rw [total_locked]
  dsimp only
  rw [total_locked]

/-- Every run over a nonempty actor account list dies in the initial `_total`:
the first `get_balance` raises AttributeError, the single retry raises it
again, and `run()` propagates it. -/
theorem run_actor_error (acts : List BankAccountActor) (h : acts ≠ [])
    (p : ℚ) (ds : List OpDecision) (e : ℚ) :
    TransactionSimulator.run actorModel acts p ds e = .error .attrError := by
  cases acts with
  | nil => exact absurd rfl h
  | cons a rest =>
    unfold TransactionSimulator.run TransactionSimulator.total
      TransactionSimulator.totalAux
    have hgb : actorModel.get_balance a = .error .attrError := by
      unfold actorModel
      dsimp only
      exact actor_get_balance_eq a
    rw [hgb]

theorem buildStats_drift (m : SimMetrics) (s e el : ℚ) :
    (TransactionSimulator.buildStats m s e el).total_drift =
      quantizeHalfEven 2 (e - s) := rfl

theorem buildStats_ops_per_sec (m : SimMetrics) (s e el : ℚ) :
    (TransactionSimulator.buildStats m s e el).ops_per_sec =
      (m.attempted : ℚ) / max el (1 / 1000000000) := rfl

theorem buildStats_same_account (m : SimMetrics) (s e el : ℚ) :
    (TransactionSimulator.buildStats m s e el).failed_same_account =
      m.same_account := rfl

theorem buildStats_succeeded (m : SimMetrics) (s e el : ℚ) :
    (TransactionSimulator.buildStats m s e el).succeeded = m.succeeded := rfl

theorem buildStats_insufficient (m : SimMetrics) (s e el : ℚ) :
    (TransactionSimulator.buildStats m s e el).failed_insufficient_funds =
      m.insufficient_funds := rfl

theorem buildStats_other (m : SimMetrics) (s e el : ℚ) :
    (TransactionSimulator.buildStats m s e el).failed_other = m.other := rfl

theorem buildStats_p95 (m : SimMetrics) (s e el : ℚ) :
    (TransactionSimulator.buildStats m s e el).p95_latency_ms =
      (if (List.insertionSort (· ≤ ·) m.latencies).length = 0 then 0
       else quantizeHalfEven 3
         ((List.insertionSort (· ≤ ·) m.latencies).getD
           (p95Index (List.insertionSort (· ≤ ·) m.latencies).length) 0 * 1000)) := rfl

theorem doTransfer_metrics {α : Type} [Inhabited α] (M : AccountModel α)
    (st : SimState α) (d : OpDecision) :
    (TransactionSimulator.doTransfer M st d).metrics.attempted =
        st.metrics.attempted + 1 ∧
    (TransactionSimulator.doTransfer M st d).metrics.same_account =
        st.metrics.same_account := by
  unfold TransactionSimulator.doTransfer
  dsimp only
  rw [if_neg (pickTwo_ne _ _ _)]
  exact ⟨record_attempted _ _ _, record_same_account _ _ _⟩

theorem doDW_metrics {α : Type} [Inhabited α] (M : AccountModel α)
    (st : SimState α) (d : OpDecision) :
    (TransactionSimulator.doDW M st d).metrics.attempted =
        st.metrics.attempted + 1 ∧
    (TransactionSimulator.doDW M st d).metrics.same_account =
        st.metrics.same_account := by
  unfold TransactionSimulator.doDW
  dsimp only
  exact ⟨record_attempted _ _ _, record_same_account _ _ _⟩

theorem simStep_metrics {α : Type} [Inhabited α] (M : AccountModel α)
    (p : ℚ) (st : SimState α) (d : OpDecision) :
    (TransactionSimulator.simStep M p st d).metrics.attempted =
        st.metrics.attempted + 1 ∧
    (TransactionSimulator.simStep M p st d).metrics.same_account =
        st.metrics.same_account := by
  unfold TransactionSimulator.simStep
  split
  · exact doTransfer_metrics M st d
  · exact doDW_metrics M st d

theorem foldl_metrics {α : Type} [Inhabited α] (M : AccountModel α) (p : ℚ)
    (ds : List OpDecision) :
    ∀ st : SimState α,
      (ds.foldl (TransactionSimulator.simStep M p) st).metrics.attempted =
          st.metrics.attempted + ds.length ∧
      (ds.foldl (TransactionSimulator.simStep M p) st).metrics.same_account =
          st.metrics.same_account := by
  induction ds with
  | nil => intro st; simp
  | cons d rest ih =>
    intro st
    rw [List.foldl_cons]
    obtain ⟨iha, ihs⟩ := ih (TransactionSimulator.simStep M p st d)
    obtain ⟨ha, hs⟩ := simStep_metrics M p st d
    constructor
    · rw [iha, ha]
      simp
      omega
    · rw [ihs, hs]

/-- Attempted equals the number of serialized operations: every branch of
`_do_transfer` and `_do_dw` counts the attempt. -/
theorem simRun_attempted {α : Type} [Inhabited α] (M : AccountModel α)
    (accounts : List α) (p : ℚ) (ds : List OpDecision) :
    (TransactionSimulator.simRun M accounts p ds).metrics.attempted = ds.length := by
  unfold TransactionSimulator.simRun
  have h := (foldl_metrics M (max 0 (min 1 p)) ds ⟨accounts, SimMetrics.start⟩).1
  simpa [SimMetrics.start] using h

/-- The same_account counter is never incremented: the sampled positions are
always distinct. -/
theorem simRun_same_account {α : Type} [Inhabited α] (M : AccountModel α)
    (accounts : List α) (p : ℚ) (ds : List OpDecision) :
    (TransactionSimulator.simRun M accounts p ds).metrics.same_account = 0 := by
  unfold TransactionSimulator.simRun
  have h := (foldl_metrics M (max 0 (min 1 p)) ds ⟨accounts, SimMetrics.start⟩).2
  simpa [SimMetrics.start] using h

/-- A locked-model transfer step conserves the account total and the account
count, whether it succeeds or fails with insufficient funds. -/
theorem doTransfer_locked_preserves (st : SimState BankAccount) (d : OpDecision)
    (h2 : 2 ≤ st.accounts.length) :
    balTotal (TransactionSimulator.doTransfer lockedModel st d).accounts =
        balTotal st.accounts ∧
    (TransactionSimulator.doTransfer lockedModel st d).accounts.length =
        st.accounts.length := by
  unfold TransactionSimulator.doTransfer
  dsimp only
  rw [if_neg (pickTwo_ne _ _ _)]
  dsimp only
  obtain ⟨hi, hj⟩ := pickTwo_lt st.accounts.length d.r1 d.r2 h2
  have hij := pickTwo_ne st.accounts.length d.r1 d.r2
  set i := (pickTwo st.accounts.length d.r1 d.r2).1 with hidef
  set j := (pickTwo st.accounts.length d.r1 d.r2).2 with hjdef
  set src := st.accounts.getD i default with hsrc
  set dst := st.accounts.getD j default with hdst
  have hpos : ¬ TransactionSimulator.amount d.centsDraw ≤ 0 :=
    not_le.mpr (amount_pos d.centsDraw)
  by_cases hlt : src.balance < TransactionSimulator.amount d.centsDraw
  · rw [lockedModel_transfer_insufficient _ _ _ hpos hlt]
    dsimp only
    constructor
    · rw [balTotal_set_two st.accounts i j src dst hi hj hij, ← hsrc, ← hdst]
      ring
    · simp [List.length_set]
  · rw [lockedModel_transfer_ok _ _ _ hpos hlt]
    dsimp only
    constructor
    · rw [balTotal_set_two st.accounts i j _ _ hi hj hij, ← hsrc, ← hdst]
      dsimp only
      ring
    · simp [List.length_set]

theorem simStep_locked_p1 (st : SimState BankAccount) (d : OpDecision)
    (h2 : 2 ≤ st.accounts.length) (hroll : d.transferRoll < 1) :
    TransactionSimulator.simStep lockedModel 1 st d =
      TransactionSimulator.doTransfer lockedModel st d := by
  unfold TransactionSimulator.simStep
  rw [if_pos ⟨hroll, h2⟩]

theorem foldl_locked_p1 (ds : List OpDecision) :
    ∀ st : SimState BankAccount, 2 ≤ st.accounts.length →
      (∀ d ∈ ds, d.transferRoll < 1) →
      balTotal ((ds.foldl (TransactionSimulator.simStep lockedModel 1) st).accounts) =
          balTotal st.accounts ∧
      ((ds.foldl (TransactionSimulator.simStep lockedModel 1) st).accounts).length =
          st.accounts.length := by
  induction ds with
  | nil => intro st h2 hroll; simp
  | cons d rest ih =>
    intro st h2 hroll
    rw [List.foldl_cons, simStep_locked_p1 st d h2 (hroll d (by simp))]
    obtain ⟨hbal, hlen⟩ := doTransfer_locked_preserves st d h2
    obtain ⟨ihb, ihl⟩ := ih (TransactionSimulator.doTransfer lockedModel st d)
      (by rw [hlen]; exact h2) (fun x hx => hroll x (by simp [hx]))
    exact ⟨by rw [ihb, hbal], by rw [ihl, hlen]⟩

/-- In a transfer-only run (`rng.random() < 1.0` always holds since the draw
lies in `[0,1)`) over at least two locked accounts, the account total is
conserved across the whole workload. -/
theorem simRun_locked_p1_total (accounts : List BankAccount)
    (ds : List OpDecision) (h2 : 2 ≤ accounts.length)
    (hroll : ∀ d ∈ ds, d.transferRoll < 1) :
    balTotal (TransactionSimulator.simRun lockedModel accounts 1 ds).accounts =
      balTotal accounts := by
  unfold TransactionSimulator.simRun
  have hp : max 0 (min 1 (1 : ℚ)) = 1 := by norm_num
  rw [hp]
  exact (foldl_locked_p1 ds ⟨accounts, SimMetrics.start⟩ h2 hroll).1

/-- Inversion for a successful run: the stats are built from the serialized
workload and the two totals. -/
theorem run_ok_elim {α : Type} [Inhabited α] (M : AccountModel α)
    (accounts : List α) (p : ℚ) (ds : List OpDecision) (e : ℚ) (s : RunStats)
    (h : TransactionSimulator.run M accounts p ds e = .ok s) :
    ∃ t1 t2 : ℚ, TransactionSimulator.total M accounts = .ok t1 ∧
      TransactionSimulator.total M
        (TransactionSimulator.simRun M accounts p ds).accounts = .ok t2 ∧
      s = TransactionSimulator.buildStats
        (TransactionSimulator.simRun M accounts p ds).metrics t1 t2 e := by
  unfold TransactionSimulator.run at h
  cases h1 : TransactionSimulator.total M accounts with
  | error e1 => rw [h1] at h; exact absurd h (by simp)
  | ok t1 =>
    rw [h1] at h
    dsimp only at h
    cases h2 : TransactionSimulator.total M
        (TransactionSimulator.simRun M accounts p ds).accounts with
    | error e2 => rw [h2] at h; exact absurd h (by simp)
    | ok t2 =>
      rw [h2] at h
      simp only [Except.ok.injEq] at h
      exact ⟨t1, t2, rfl, rfl, h.symm⟩

-- concrete run evaluations

/-- A single withdraw of 0.50 against a locked account holding 0.00: the
attempt fails with the module-local InsufficientFunds, which the simulator
counts under other. -/
theorem simRun_z_eval :
    TransactionSimulator.simRun lockedModel [⟨"Z", 0⟩] 0
      [⟨1, 0, 0, 49, false, 1⟩] = ⟨[⟨"Z", 0⟩], ⟨1, 0, 1, 0, 0, 0, 1, [1]⟩⟩ := by
  unfold TransactionSimulator.simRun
  have hp : max 0 (min 1 (0 : ℚ)) = 0 := by norm_num
  rw [hp, List.foldl_cons, List.foldl_nil]
  unfold TransactionSimulator.simStep
  rw [if_neg (by norm_num)]
  unfold TransactionSimulator.doDW
  dsimp only
  rw [amount_eq]
  norm_num
  rw [lockedModel_withdraw_insufficient _ _ (by norm_num) (by norm_num)]
  dsimp only
  rw [record_eval_insLocal]
  exact ⟨rfl, rfl⟩

theorem actorModel_withdraw_snd (a : BankAccountActor) (x : ℚ) :
    (actorModel.withdraw a x).2 = .error .attrError := by
  unfold actorModel
  dsimp only
  exact actor_withdraw_snd a x

theorem record_eval_attr :
    SimMetrics.record SimMetrics.start 1 (.error .attrError) =
      ⟨1, 0, 1, 0, 0, 0, 1, [1]⟩ := rfl

/-- The same single-withdraw workload against an actor account: the caller
observes AttributeError, so the failure is counted under other as well. -/
theorem c4_actor_eval :
    (TransactionSimulator.simRun actorModel [BankAccountActor.init "D" 1000] 0
      [⟨1, 0, 0, 49, false, 1⟩]).metrics = ⟨1, 0, 1, 0, 0, 0, 1, [1]⟩ := by
  unfold TransactionSimulator.simRun
  have hp : max 0 (min 1 (0 : ℚ)) = 0 := by norm_num
  rw [hp, List.foldl_cons, List.foldl_nil]
  unfold TransactionSimulator.simStep
  rw [if_neg (by norm_num)]
  unfold TransactionSimulator.doDW
  dsimp only
  simp only [Bool.false_eq_true, if_false]
  rw [actorModel_withdraw_snd, record_eval_attr]

theorem c7_step1 :
    TransactionSimulator.simStep lockedModel 0 ⟨[⟨"Z", 1000⟩], SimMetrics.start⟩
      ⟨1, 0, 0, 99, true, 1⟩ = ⟨[⟨"Z", 1001⟩], ⟨1, 1, 0, 0, 0, 0, 0, [1]⟩⟩ := by
  unfold TransactionSimulator.simStep
  rw [if_neg (by norm_num)]
  unfold TransactionSimulator.doDW
  dsimp only
  rw [amount_eq]
  norm_num
  rw [lockedModel_deposit_ok _ _ (by norm_num)]
  norm_num [SimMetrics.record, SimMetrics.start]

theorem c7_step2 :
    TransactionSimulator.simStep lockedModel 0
      ⟨[⟨"Z", 1001⟩], ⟨1, 1, 0, 0, 0, 0, 0, [1]⟩⟩ ⟨1, 0, 0, 99, true, 2⟩ =
      ⟨[⟨"Z", 1002⟩], ⟨2, 2, 0, 0, 0, 0, 0, [1, 2]⟩⟩ := by
  unfold TransactionSimulator.simStep
  rw [if_neg (by norm_num)]
  unfold TransactionSimulator.doDW
  dsimp only
  rw [amount_eq]
  norm_num
  rw [lockedModel_deposit_ok _ _ (by norm_num)]
  norm_num [SimMetrics.record]

/-- Two successful deposits with measured latencies 1s and 2s. -/
theorem simRun_z2_eval :
    TransactionSimulator.simRun lockedModel [⟨"Z", 1000⟩] 0
      [⟨1, 0, 0, 99, true, 1⟩, ⟨1, 0, 0, 99, true, 2⟩] =
      ⟨[⟨"Z", 1002⟩], ⟨2, 2, 0, 0, 0, 0, 0, [1, 2]⟩⟩ := by
  unfold TransactionSimulator.simRun
  have hp : max 0 (min 1 (0 : ℚ)) = 0 := by norm_num
  rw [hp, List.foldl_cons, c7_step1, List.foldl_cons, c7_step2, List.foldl_nil]

theorem insertionSort_two : List.insertionSort (· ≤ ·) [(1 : ℚ), 2] = [1, 2] := by
  norm_num [List.insertionSort, List.orderedInsert]

/-- Claim C1 (code_bug): the closed-economy invariant holds for the
locked model — any transfer-only run (`p = 1`, rolls in `[0,1)`) over at least
two locked accounts reports total_drift exactly 0.00 — but the actor half of
the claim fails in the code: any simulator run over a nonempty set of
BankAccountActor instances raises AttributeError inside the initial `_total`
(missing `cfg.ACTOR_CALL_TIMEOUT_SEC`) and never reports a drift at all. -/
theorem transfer_only_drift_c1 (accounts : List BankAccount)
    (ds : List OpDecision) (e : ℚ) (h2 : 2 ≤ accounts.length)
    (hroll : ∀ d ∈ ds, d.transferRoll < 1)
    (acts : List BankAccountActor) (hacts : acts ≠ [])
    (ds2 : List OpDecision) (e2 : ℚ) :
    (∃ s : RunStats, TransactionSimulator.run lockedModel accounts 1 ds e = .ok s ∧
      s.total_drift = 0) ∧
    TransactionSimulator.run actorModel acts 1 ds2 e2 = .error .attrError := by
  constructor
  · refine ⟨_, run_locked_eq accounts 1 ds e, ?_⟩
    rw [buildStats_drift, simRun_locked_p1_total accounts ds h2 hroll, sub_self,
      quantizeHalfEven_zero]
  · exact run_actor_error acts hacts 1 ds2 e2

/-- Witness for C1 at two locked accounts seeded 1000.00 with one transfer
operation, and two actor accounts seeded 1000.00. -/
theorem transfer_only_drift_c1_witness :
    (∃ s : RunStats, TransactionSimulator.run lockedModel
        [BankAccount.init "A00" 1000, BankAccount.init "A01" 1000] 1
        [⟨1 / 2, 0, 0, 49, false, 1⟩] 1 = .ok s ∧ s.total_drift = 0) ∧
    TransactionSimulator.run actorModel
        [BankAccountActor.init "B00" 1000, BankAccountActor.init "B01" 1000] 1
        [] 1 = .error .attrError :=
  transfer_only_drift_c1 _ _ _ (by norm_num)
    (by intro d hd; simp at hd; subst hd; norm_num) _ (by simp) [] 1

/-- Claim C3 (counterexample): a run with one attempted and zero succeeded
operations reports ops_per_sec = 1 op/s, while the formula of the spec —
succeeded divided by elapsed — gives 0; the two disagree. -/
theorem ops_per_sec_spec_counterexample :
    ((TransactionSimulator.run lockedModel [⟨"Z", 0⟩] 0
        [⟨1, 0, 0, 49, false, 1⟩] 1).map
      (fun s => (s.ops_per_sec,
        specOpsPerSec s.succeeded (max 1 (1 / 1000000000))))) = .ok (1, 0) ∧
    (1 : ℚ) ≠ 0 := by
  refine ⟨?_, by norm_num⟩
  rw [run_locked_eq, simRun_z_eval]
  simp only [Except.map, buildStats_ops_per_sec, buildStats_succeeded]
  unfold specOpsPerSec
  norm_num

/-- Claim C3 (amended): ops_per_sec equals the attempted operation count —
the number of workload operations — divided by the elapsed time clamped below
at 1 nanosecond, for every successful run on either account model. -/
theorem ops_per_sec_c3 {α : Type} [Inhabited α] (M : AccountModel α)
    (accounts : List α) (p : ℚ) (ds : List OpDecision) (e : ℚ) (s : RunStats)
    (h : TransactionSimulator.run M accounts p ds e = .ok s) :
    s.ops_per_sec = (ds.length : ℚ) / max e (1 / 1000000000) := by
  obtain ⟨t1, t2, _, _, hs⟩ := run_ok_elim M accounts p ds e s h
  subst hs
  rw [buildStats_ops_per_sec, simRun_attempted]

/-- Witness for the amended C3 at a concrete one-operation run. -/
theorem ops_per_sec_c3_witness :
    (TransactionSimulator.buildStats
      (TransactionSimulator.simRun lockedModel [⟨"Z", 0⟩] 0
        [⟨1, 0, 0, 49, false, 1⟩]).metrics
      (quantizeHalfEven 2 (balTotal [⟨"Z", 0⟩]))
      (quantizeHalfEven 2 (balTotal
        (TransactionSimulator.simRun lockedModel [⟨"Z", 0⟩] 0
          [⟨1, 0, 0, 49, false, 1⟩]).accounts)) 1).ops_per_sec =
      ((List.length [(⟨1, 0, 0, 49, false, 1⟩ : OpDecision)] : ℕ) : ℚ) /
        max 1 (1 / 1000000000) :=
  ops_per_sec_c3 lockedModel [⟨"Z", 0⟩] 0 [⟨1, 0, 0, 49, false, 1⟩] 1 _
    (run_locked_eq _ _ _ _)

/-- Claim C4 (code_bug evidence): a locked-model withdrawal that fails for
insufficient balance raises the module-local InsufficientFunds of
bank_account.py, which the simulator (catching bank.errors.InsufficientFunds)
does not recognize: the run counts it under other and leaves
insufficient_funds at 0.  On the actor model the caller observes
AttributeError instead of InsufficientFunds, so the failure lands in other
there too. -/
theorem insufficient_funds_counted_other_c4 :
    ((TransactionSimulator.run lockedModel [⟨"Z", 0⟩] 0
        [⟨1, 0, 0, 49, false, 1⟩] 1).map
      (fun s => (s.failed_insufficient_funds, s.failed_other))) = .ok (0, 1) ∧
    BankAccount.withdraw ⟨"Z", 0⟩ (1 / 2) = .error .insufficientFundsLocal ∧
    (TransactionSimulator.simRun actorModel [BankAccountActor.init "D" 1000] 0
      [⟨1, 0, 0, 49, false, 1⟩]).metrics.insufficient_funds = 0 ∧
    (TransactionSimulator.simRun actorModel [BankAccountActor.init "D" 1000] 0
      [⟨1, 0, 0, 49, false, 1⟩]).metrics.other = 1 := by
  refine ⟨?_, ?_, ?_, ?_⟩
  · rw [run_locked_eq, simRun_z_eval]
    simp only [Except.map, buildStats_insufficient, buildStats_other]
  · unfold BankAccount.withdraw
    norm_num
  · rw [c4_actor_eval]
  · rw [c4_actor_eval]

/-- Claim C7 (counterexample): with recorded latencies 1s and 2s the code
reports p95_latency_ms = 1000 (index `int(0.95*(n-1)) = 0`, the floor), while
the rank formula of the spec — the ceiling `⌈0.95*(n-1)⌉ = 1` — yields 2000. -/
theorem p95_ceiling_counterexample :
    ((TransactionSimulator.run lockedModel [⟨"Z", 1000⟩] 0
        [⟨1, 0, 0, 99, true, 1⟩, ⟨1, 0, 0, 99, true, 2⟩] 1).map
      RunStats.p95_latency_ms) = .ok 1000 ∧
    specP95ms [1, 2] = 2000 ∧ ((1000 : ℚ) ≠ 2000) := by
  refine ⟨?_, ?_, by norm_num⟩
  · rw [run_locked_eq, simRun_z2_eval]
    simp only [Except.map, buildStats_p95]
    rw [insertionSort_two]
    norm_num [p95Index]
    have h1000 := quantizeHalfEven_intCast 3 1000
    norm_num at h1000
    exact h1000
  · unfold specP95ms
    rw [insertionSort_two]
    norm_num
    rw [show ⌈(19 : ℚ) / 20⌉₊ = 1 from by rw [Nat.ceil_eq_iff] <;> norm_num]
    norm_num

/-- Claim C7 (amended): for every successful run with at least one recorded
latency sample, p95_latency_ms is the sample at rank `⌊0.95·(n−1)⌋` (floor,
not ceiling) of the nondecreasing rearrangement of the recorded latencies,
converted to milliseconds and rounded half-even to three digits. -/
theorem p95_floor_rank_c7 {α : Type} [Inhabited α] (M : AccountModel α)
    (accounts : List α) (p : ℚ) (ds : List OpDecision) (e : ℚ) (s : RunStats)
    (h : TransactionSimulator.run M accounts p ds e = .ok s)
    (hne : (TransactionSimulator.simRun M accounts p ds).metrics.latencies ≠ []) :
    ∃ l : List ℚ,
      l.Perm (TransactionSimulator.simRun M accounts p ds).metrics.latencies ∧
      l.Sorted (· ≤ ·) ∧
      s.p95_latency_ms =
        quantizeHalfEven 3 (l.getD (p95Index l.length) 0 * 1000) := by
  obtain ⟨t1, t2, _, _, hs⟩ := run_ok_elim M accounts p ds e s h
  subst hs
  refine ⟨List.insertionSort (· ≤ ·)
      (TransactionSimulator.simRun M accounts p ds).metrics.latencies,
    List.perm_insertionSort _ _, List.sorted_insertionSort _ _, ?_⟩
  rw [buildStats_p95,
    if_neg (by simp [List.length_insertionSort, List.length_eq_zero, hne])]

/-- Witness for the amended C7 at the concrete two-deposit run. -/
theorem p95_floor_rank_c7_witness :
    ∃ l : List ℚ,
      l.Perm (TransactionSimulator.simRun lockedModel [⟨"Z", 1000⟩] 0
        [⟨1, 0, 0, 99, true, 1⟩, ⟨1, 0, 0, 99, true, 2⟩]).metrics.latencies ∧
      l.Sorted (· ≤ ·) ∧
      (TransactionSimulator.buildStats
        (TransactionSimulator.simRun lockedModel [⟨"Z", 1000⟩] 0
          [⟨1, 0, 0, 99, true, 1⟩, ⟨1, 0, 0, 99, true, 2⟩]).metrics
        (quantizeHalfEven 2 (balTotal [⟨"Z", 1000⟩]))
        (quantizeHalfEven 2 (balTotal
          (TransactionSimulator.simRun lockedModel [⟨"Z", 1000⟩] 0
            [⟨1, 0, 0, 99, true, 1⟩, ⟨1, 0, 0, 99, true, 2⟩]).accounts)) 1).p95_latency_ms =
        quantizeHalfEven 3 (l.getD (p95Index l.length) 0 * 1000) :=
  p95_floor_rank_c7 lockedModel [⟨"Z", 1000⟩] 0
    [⟨1, 0, 0, 99, true, 1⟩, ⟨1, 0, 0, 99, true, 2⟩] 1 _
    (run_locked_eq _ _ _ _) (by rw [simRun_z2_eval]; simp)

/-- Claim C10 (confirmed): every finished run reports same_account = 0.
`_worker` enters `_do_transfer` only with at least two accounts, where
`random.sample` picks two distinct positions (`pickTwo_ne`), so the
same-account branch is unreachable and nothing else touches the counter.
With an empty account list the Python workers die on IndexError before
touching any counter, so the counter is 0 in that degenerate case as well. -/
theorem same_account_zero_c10 {α : Type} [Inhabited α] (M : AccountModel α)
    (accounts : List α) (p : ℚ) (ds : List OpDecision) (e : ℚ) (s : RunStats)
    (h : TransactionSimulator.run M accounts p ds e = .ok s) :
    s.failed_same_account = 0 := by
  obtain ⟨t1, t2, _, _, hs⟩ := run_ok_elim M accounts p ds e s h
  subst hs
  rw [buildStats_same_account, simRun_same_account]

/-- Witness for C10 at a concrete mixed run. -/
theorem same_account_zero_c10_witness :
    (TransactionSimulator.buildStats
      (TransactionSimulator.simRun lockedModel [⟨"Z", 0⟩] (1 / 2)
        [⟨0, 3, 5, 49, true, 1⟩]).metrics
      (quantizeHalfEven 2 (balTotal [⟨"Z", 0⟩]))
      (quantizeHalfEven 2 (balTotal
        (TransactionSimulator.simRun lockedModel [⟨"Z", 0⟩] (1 / 2)
          [⟨0, 3, 5, 49, true, 1⟩]).accounts)) 1).failed_same_account = 0 :=
  same_account_zero_c10 lockedModel [⟨"Z", 0⟩] (1 / 2) [⟨0, 3, 5, 49, true, 1⟩] 1 _
    (run_locked_eq _ _ _ _)
